import Mathlib

/-!
# Verification of the adaptive learner-modeling engine

Shallow embedding, over `ℚ`, of the algorithmic core of the learner-modeling
backend (`app/services/knowledge_update_service.py`, `affective_service.py`,
`behavior_service.py`, `knowledge_inference_service.py`,
`performance_service.py`, `simulation_session_service.py`,
`adaptation_engine.py`), together with theorems about the engine's numeric
invariants, decision policies and orchestration state machine.

Modelling conventions:
* Python `float` values are modelled as `ℚ`; every arithmetic step of the
  source is translated literally (including its explicit clamps and its
  zero-denominator guards), so no rounding error model is needed.
* Python `round(x, 2)` is modelled as decimal rounding half-to-even
  (`pyRound2`), Python `int(x)` as truncation toward zero (`pyInt`).
* Nullable ORM columns are modelled as `Option`; Python truthiness tests on
  them (`x or d`, `if x`) are translated explicitly.
* The database session is modelled as an explicit `Store` value; service
  functions that `add`/`commit` take and return the `Store`, while pure
  `SELECT`-only helpers read it.  UUIDs and datetimes are modelled as `ℤ`.
* Apostrophes inside French string literals are rendered as U+2019.
-/

namespace Apprenant

/-- `_clamp01` from `knowledge_update_service.py`: bound a probability
into `[0, 1]` (`max(0.0, min(1.0, value))`). -/
def clamp01 (value : ℚ) : ℚ := max 0 (min 1 value)

/-- `score_to_correct`: convert a 0–100 score into a pass/fail outcome
(`score >= threshold`). -/
def score_to_correct (score : ℚ) (threshold : ℚ := 50) : Bool :=
  score ≥ threshold

/-- Python `int(x)`: truncation toward zero. -/
def pyInt (q : ℚ) : ℤ := if 0 ≤ q then ⌊q⌋ else ⌈q⌉

/-- Python `round(x)` to an integer: round half to even (banker's
rounding), as CPython does on exactly representable halves. -/
def pyRoundInt (q : ℚ) : ℤ :=
  if q - ⌊q⌋ < 1/2 then ⌊q⌋
  else if q - ⌊q⌋ > 1/2 then ⌊q⌋ + 1
  else if Even ⌊q⌋ then ⌊q⌋ else ⌊q⌋ + 1

/-- Python `round(x, 2)`: round to 2 decimal places (half to even). -/
def pyRound2 (q : ℚ) : ℚ := (pyRoundInt (q * 100) : ℚ) / 100

/-- The denominator of the BKT posterior, as computed inside `bkt_update`
(after the clamps): `m*(1-s) + (1-m)*g` on a correct observation,
`m*s + (1-m)*(1-g)` on an incorrect one. -/
def bktDenom (p_mastery : ℚ) (correct : Bool) (p_guess p_slip : ℚ) : ℚ :=
  if correct then
    p_mastery * (1 - p_slip) + (1 - p_mastery) * p_guess
  else
    p_mastery * p_slip + (1 - p_mastery) * (1 - p_guess)

/-- The BKT posterior `p_given_obs` computed by `bkt_update` (after the
clamps): numerator over `bktDenom`, falling back to the prior `p_mastery`
when the denominator is zero (`... / denom if denom else p_mastery`). -/
def bktPosterior (p_mastery : ℚ) (correct : Bool) (p_guess p_slip : ℚ) : ℚ :=
  let denom := bktDenom p_mastery correct p_guess p_slip
  if denom = 0 then p_mastery
  else if correct then p_mastery * (1 - p_slip) / denom
  else p_mastery * p_slip / denom

/-- `bkt_update` from `knowledge_update_service.py`: clamp all four inputs
to `[0,1]`, compute the posterior given the observation (with the
zero-denominator fallback), apply the learning transition
`p_obs + (1-p_obs)*p_transit`, and clamp the result. -/
def bkt_update (p_mastery : ℚ) (correct : Bool)
    (p_transit p_guess p_slip : ℚ) : ℚ :=
  let m := clamp01 p_mastery
  let t := clamp01 p_transit
  let g := clamp01 p_guess
  let s := clamp01 p_slip
  let p_given_obs := bktPosterior m correct g s
  clamp01 (p_given_obs + (1 - p_given_obs) * t)

/-- `update_mastery`: derive the correctness observation from the score
when no explicit flag is supplied, then apply `bkt_update`. -/
def update_mastery (current_level score : ℚ)
    (correct : Option Bool := none)
    (p_transit : ℚ := 15/100) (p_guess : ℚ := 2/10) (p_slip : ℚ := 1/10)
    (threshold : ℚ := 50) : ℚ :=
  let obs_correct := correct.getD (score_to_correct score threshold)
  bkt_update current_level obs_correct p_transit p_guess p_slip

/-- `calculate_mastery_from_history`: fold `update_mastery` over a score
list starting from 0.2; empty history returns 0.2. -/
def calculate_mastery_from_history (scores : List ℚ) : ℚ :=
  scores.foldl (fun p s => update_mastery p s) (2/10)

/-- `calculate_confidence` from `knowledge_update_service.py`. -/
def calculate_confidence (nb_success nb_failures streak_correct : ℤ) : ℚ :=
  let total := nb_success + nb_failures
  if total = 0 then 0
  else min ((min ((total : ℚ) / 20) (8/10)) + min ((streak_correct : ℚ) / 10) (2/10)) 1

/-- `compute_engagement` from `behavior_service.py`: weighted sum of three
saturating normalized counters, clamped to `[0,1]`. -/
def compute_engagement (sessions activities time_spent : ℤ) : ℚ :=
  let sessions_score := min ((sessions : ℚ) / 20) 1
  let activities_score := min ((activities : ℚ) / 50) 1
  let time_score := min ((time_spent : ℚ) / 36000) 1
  min 1 (max 0 (sessions_score * (3/10) + activities_score * (4/10) + time_score * (3/10)))

/-- `get_engagement_label` from `behavior_service.py`. -/
def get_engagement_label (engagement_score : ℚ) : String :=
  if engagement_score ≥ 8/10 then "Très engagé"
  else if engagement_score ≥ 6/10 then "Engagé"
  else if engagement_score ≥ 4/10 then "Modérément engagé"
  else if engagement_score ≥ 2/10 then "Peu engagé"
  else "Désengagé"

/-- `update_affective_state` from `affective_service.py`: piecewise additive
adjustment of the 4-dimensional affective vector keyed by score band, an
optional progress adjustment, every output rounded to 2 decimals. -/
def update_affective_state (motivation frustration confidence stress score : ℚ)
    (previous_score : Option ℚ := none) : ℚ × ℚ × ℚ × ℚ :=
  let (m, f, c, st) :=
    if score < 50 then
      (max 0 (motivation - 1/10), min 1 (frustration + 15/100),
       max 0 (confidence - 15/100), min 1 (stress + 1/10))
    else if score < 70 then
      (min 1 (motivation + 5/100), max 0 (frustration - 5/100),
       max 0 (confidence - 5/100), max 0 (stress - 5/100))
    else if score < 85 then
      (min 1 (motivation + 15/100), max 0 (frustration - 1/10),
       min 1 (confidence + 1/10), max 0 (stress - 1/10))
    else
      (min 1 (motivation + 2/10), max 0 (frustration - 15/100),
       min 1 (confidence + 2/10), max 0 (stress - 15/100))
  let (m, f, c) :=
    match previous_score with
    | none => (m, f, c)
    | some prev =>
        let progress := score - prev
        if progress > 10 then (min 1 (m + 1/10), f, min 1 (c + 1/10))
        else if progress < -10 then (m, min 1 (f + 1/10), max 0 (c - 1/10))
        else (m, f, c)
  (pyRound2 m, pyRound2 f, pyRound2 c, pyRound2 st)

/-- `get_affective_label` from `affective_service.py`. -/
def get_affective_label (motivation frustration confidence stress : ℚ) : String :=
  let affective_balance := (motivation + confidence) / 2 - (frustration + stress) / 2
  if affective_balance > 3/10 then "Très positif"
  else if affective_balance > 1/10 then "Positif"
  else if affective_balance > -(1/10) then "Neutre"
  else if affective_balance > -(3/10) then "Négatif"
  else "Très négatif"

/-- `detect_frustration` (default threshold 0.7). -/
def detect_frustration (frustration : ℚ) (threshold : ℚ := 7/10) : Bool :=
  frustration ≥ threshold

/-- `detect_demotivation` (default threshold 0.3). -/
def detect_demotivation (motivation : ℚ) (threshold : ℚ := 3/10) : Bool :=
  motivation ≤ threshold

/-- `get_feedback_type` from `affective_service.py`: priority-ordered
decision on the affective vector, returning the source's French labels
("soutien" = support, "aide" = the balanced fallback). -/
def get_feedback_type (motivation frustration confidence stress : ℚ) : String :=
  let is_frustrated := detect_frustration frustration
  let is_demotivated := detect_demotivation motivation
  let is_confident := confidence > 7/10
  let is_stressed := stress > 7/10
  if is_frustrated then "soutien"
  else if is_demotivated then "encouragement"
  else if is_confident && !is_stressed then "challenge"
  else if is_stressed then "soutien"
  else "aide"

/-- One entry of the `updated_masteries` list built by
`process_simulation_completion` (the dicts
`{competence_id, mastery_level, confidence}`). -/
structure MasteryOut where
  competence_id : ℤ
  mastery_level : ℚ
  confidence : ℚ
deriving DecidableEq, Repr

/-- The affective-state dict returned by `_update_session_affective_state`. -/
structure AffectiveOut where
  motivation : ℚ
  frustration : ℚ
  confidence : ℚ
  stress : ℚ
  label : String
deriving DecidableEq, Repr

/-- The next-action dict returned by `_get_next_action`. -/
structure NextAction where
  action_type : String
  recommended_difficulty : ℤ
  message : String
  estimated_duration_min : ℤ
  support_level : String
deriving DecidableEq, Repr

/-- Mean of the `mastery_level` fields of the per-competency mastery list,
defaulting to 0.5 when the list is empty (shared by
`_generate_pedagogical_recommendation` and `_get_next_action`). -/
def avgMastery (masteries : List MasteryOut) : ℚ :=
  if masteries = [] then 1/2
  else (masteries.map (·.mastery_level)).sum / masteries.length

/-- `_calculate_session_score` from `adaptation_engine.py`: with no
competency scores, 80/20 from the diagnostic; otherwise
`0.6 * mean(all scores) + 0.4 * diagnostic`, clamped to `[0,100]` and
rounded to 2 decimals.  `competence_scores` is the insertion-ordered
Python dict, modelled as an association list; the `actions` argument is
unused by the source body. -/
def calculate_session_score (competence_scores : List (ℤ × List ℚ))
    (diagnostic_correct : Bool) : ℚ :=
  if competence_scores = [] then
    if diagnostic_correct then 80 else 20
  else
    let all_scores := (competence_scores.map Prod.snd).flatten
    let avg_competence_score :=
      if all_scores = [] then 50 else all_scores.sum / all_scores.length
    let diagnostic_score : ℚ := if diagnostic_correct then 100 else 0
    let final_score := avg_competence_score * (6/10) + diagnostic_score * (4/10)
    pyRound2 (min 100 (max 0 final_score))

/-- `_generate_pedagogical_recommendation` from `adaptation_engine.py`
(its `db`/`learner_id` arguments are unused by the body and omitted). -/
def generate_pedagogical_recommendation (score : ℚ)
    (masteries : List MasteryOut) (affective : AffectiveOut) : String :=
  let avg_mastery := avgMastery masteries
  let frustration := affective.frustration
  let motivation := affective.motivation
  let confidence := affective.confidence
  if score < 40 then
    if frustration > 7/10 then
      "Score faible avec forte frustration. Recommandation : Revoir les concepts de base avec des cas très guidés et beaucoup d’encouragements. Prendre une pause si nécessaire."
    else
      "Score faible. Recommandation : Reprendre les fondamentaux avec des cas de niveau 1 et un tutorat renforcé."
  else if score < 60 then
    if avg_mastery < 4/10 then
      "Score moyen avec maîtrise faible. Recommandation : Se concentrer sur les compétences faibles identifiées avec des exercices ciblés."
    else
      "Score moyen. Recommandation : Continuer à pratiquer sur des cas de même niveau pour consolider les acquis."
  else if score < 80 then
    if confidence < 1/2 then
      "Bon score mais confiance faible. Recommandation : Renforcer la confiance avec plus de pratique sur le même niveau avant de progresser."
    else
      "Bonne performance ! Recommandation : Prêt pour des cas légèrement plus complexes. Continuer sur cette dynamique."
  else
    if avg_mastery ≥ 8/10 ∧ motivation > 7/10 then
      "Excellente performance avec forte maîtrise ! Recommandation : Passer au niveau supérieur et explorer des cas plus complexes ou des spécialisations."
    else
      "Excellente performance ! Recommandation : Consolider cette maîtrise avec quelques cas similaires puis progresser vers le niveau suivant."

/-- `_get_next_action` from `adaptation_engine.py`: branch on the score
band and affect, deriving the recommended difficulty from truncated
`int(avg_mastery * 5)` with branch-specific bounds. -/
def get_next_action (score : ℚ) (masteries : List MasteryOut)
    (affective : AffectiveOut) : NextAction :=
  let avg_mastery := avgMastery masteries
  let frustration := affective.frustration
  let motivation := affective.motivation
  let confidence := affective.confidence
  let (difficulty, action_type, message) :=
    if score < 40 ∨ frustration > 7/10 then
      ((1 : ℤ), "revise_fundamentals",
       "Reprendre les bases avec des cas simples et guidés")
    else if score < 60 ∨ avg_mastery < 4/10 then
      (max 1 (pyInt (avg_mastery * 5)), "practice_current_level",
       "Continuer à pratiquer au niveau actuel pour consolider")
    else if score < 80 then
      if confidence < 1/2 then
        (max 1 (pyInt (avg_mastery * 5)), "build_confidence",
         "Renforcer la confiance au niveau actuel")
      else
        (min 5 (pyInt (avg_mastery * 5) + 1), "progress_next_level",
         "Progresser vers des cas légèrement plus complexes")
    else
      if avg_mastery ≥ 8/10 ∧ motivation > 7/10 then
        (min 5 (pyInt (avg_mastery * 5) + 1), "challenge",
         "Relever des défis plus complexes")
      else
        (pyInt (avg_mastery * 5), "consolidate",
         "Consolider les acquis avant de progresser")
  { action_type := action_type
    recommended_difficulty := difficulty
    message := message
    estimated_duration_min := 20 + difficulty * 10
    support_level :=
      if frustration > 1/2 then "high"
      else if confidence < 1/2 then "medium"
      else "low" }

/-! ## Store model

The SQLAlchemy session is modelled as an explicit `Store` of rows.
UUID / datetime columns are modelled as `ℤ`; nullable columns as `Option`.
Python truthiness on nullable numerics (`x or d`, `if x`) is made explicit
by `pyOrQ` / `pyOrZ` (both `None` and `0` are falsy). -/

/-- Python `x or d` on a nullable float column. -/
def pyOrQ (x : Option ℚ) (d : ℚ) : ℚ :=
  match x with
  | none => d
  | some v => if v = 0 then d else v

/-- Python `x or d` on a nullable integer column. -/
def pyOrZ (x : Option ℤ) (d : ℤ) : ℤ :=
  match x with
  | none => d
  | some v => if v = 0 then d else v

/-- A `simulation_sessions` row (columns used by the engine). -/
structure SessionRow where
  id : ℤ
  learner_id : ℤ
  cas_clinique_id : ℤ
  start_time : Option ℤ
  end_time : Option ℤ
  score_final : Option ℚ
  temps_total : Option ℤ
  statut : Option String
  raison_fin : Option String
  current_stage : Option String
deriving DecidableEq, Repr

/-- A `learner_competency_mastery` row. -/
structure MasteryRow where
  learner_id : ℤ
  competence_id : ℤ
  mastery_level : Option ℚ
  confidence : Option ℚ
  last_practice_date : Option ℤ
  nb_success : Option ℤ
  nb_failures : Option ℤ
  streak_correct : Option ℤ
deriving DecidableEq, Repr

/-- A `learner_affective_states` row. -/
structure AffectiveRow where
  session_id : ℤ
  timestamp : ℤ
  stress_level : Option ℚ
  confidence_level : Option ℚ
  motivation_level : Option ℚ
  frustration_level : Option ℚ
deriving DecidableEq, Repr

/-- A `learner_behaviors` row. -/
structure BehaviorRow where
  learner_id : ℤ
  sessions_count : Option ℤ
  activities_count : Option ℤ
  total_time_spent : Option ℤ
  engagement_score : Option ℚ
deriving DecidableEq, Repr

/-- A `competences_cliniques` row.  Its BKT parameters are Python
`@property` constants on the model (0.2 / 0.15 / 0.2 / 0.1). -/
structure CompetenceRow where
  id : ℤ
  code_competence : String
  nom : String
deriving DecidableEq, Repr

/-- `CompetenceClinique.p_init` (constant property). -/
def CompetenceRow.p_init (_c : CompetenceRow) : ℚ := 2/10

/-- `CompetenceClinique.p_transit` (constant property). -/
def CompetenceRow.p_transit (_c : CompetenceRow) : ℚ := 15/100

/-- `CompetenceClinique.p_guess` (constant property). -/
def CompetenceRow.p_guess (_c : CompetenceRow) : ℚ := 2/10

/-- `CompetenceClinique.p_slip` (constant property). -/
def CompetenceRow.p_slip (_c : CompetenceRow) : ℚ := 1/10

/-- The JSON `action_content` payload of an interaction.  `nonDict` stands
for any truthy JSON value that is not a dict (skipped by extraction);
`dict` carries the two fields the engine reads, each possibly absent. -/
inductive ActionContent where
  | nonDict : ActionContent
  | dict (competence_id : Option ℤ) (score : Option ℚ) : ActionContent
deriving DecidableEq, Repr

/-- An `interaction_logs` row.  A `none` content models a NULL or empty
(falsy) JSON payload. -/
structure InteractionRow where
  session_id : ℤ
  timestamp : ℤ
  action_type : Option String
  action_category : Option String
  action_content : Option ActionContent
  response_latency : Option ℤ
deriving DecidableEq, Repr

/-- A `cas_cliniques_enrichis` row (statistics columns only). -/
structure CaseRow where
  id : ℤ
  niveau_difficulte : Option ℤ
  nb_utilisations : Option ℤ
  note_moyenne_apprenants : Option ℚ
  taux_succes_diagnostic : Option ℚ
deriving DecidableEq, Repr

/-- One element of the `actions` list passed to
`process_simulation_completion` (the fields `create_interactions_batch`
reads with `.get`). -/
structure ActionIn where
  action_type : Option String
  action_category : Option String
  action_content : Option ActionContent
  response_latency : Option ℤ
deriving DecidableEq, Repr

/-- The relational store: one list per table (insertion-ordered, as rows
come back from the unordered `.all()` queries), plus the current clock
used for `datetime.now()` / fresh-row timestamps. -/
structure Store where
  sessions : List SessionRow
  masteries : List MasteryRow
  affectives : List AffectiveRow
  behaviors : List BehaviorRow
  competences : List CompetenceRow
  interactions : List InteractionRow
  cases : List CaseRow
  now : ℤ
deriving DecidableEq, Repr

/-- Append `v` to the list held at key `k` of an insertion-ordered Python
dict, creating the key at the end when absent. -/
def assocAppend (l : List (ℤ × List ℚ)) (k : ℤ) (v : ℚ) : List (ℤ × List ℚ) :=
  match l with
  | [] => [(k, [v])]
  | (k', vs) :: rest =>
      if k' = k then (k', vs ++ [v]) :: rest else (k', vs) :: assocAppend rest k v

/-- Lookup in such an association list. -/
def assocFind (l : List (ℤ × List ℚ)) (k : ℤ) : Option (List ℚ) :=
  match l with
  | [] => none
  | (k', vs) :: rest => if k' = k then some vs else assocFind rest k

/-- The extraction loop body of `extract_competences_from_actions`: walk
the session's interactions in order; skip falsy / non-dict content; keep a
`{competence_id, score}` pair only when `competence_id` is truthy
(non-null and nonzero) and `score` is not `None`. -/
def extractLoop (logs : List InteractionRow) : List (ℤ × List ℚ) :=
  logs.foldl
    (fun acc log =>
      match log.action_content with
      | none => acc
      | some .nonDict => acc
      | some (.dict comp_id score) =>
          match comp_id, score with
          | some cid, some s => if cid = 0 then acc else assocAppend acc cid s
          | _, _ => acc)
    []

/-- `extract_competences_from_actions` from
`knowledge_inference_service.py`: group the observed competency scores of
a session's interaction logs into `competency_id → [scores]`.  Read-only
(no commit). -/
def extract_competences_from_actions (db : Store) (session_id : ℤ) :
    List (ℤ × List ℚ) :=
  extractLoop (db.interactions.filter (fun i => i.session_id == session_id))

/-- `create_interactions_batch` from `interaction_log_service.py`: append
one `InteractionLog` row per action (fresh timestamps from the clock). -/
def create_interactions_batch (db : Store) (session_id : ℤ)
    (actions : List ActionIn) : Store :=
  { db with interactions :=
      db.interactions ++ actions.map (fun a =>
        { session_id := session_id
          timestamp := db.now
          action_type := a.action_type
          action_category := a.action_category
          action_content := a.action_content
          response_latency := a.response_latency }) }

/-- Replace the first mastery row with the same `(learner_id,
competence_id)` key, appending when none exists (the `db.add` +
in-place-mutation pattern of `infer_knowledge_from_interaction`). -/
def upsertMastery (rows : List MasteryRow) (m : MasteryRow) : List MasteryRow :=
  match rows with
  | [] => [m]
  | r :: rest =>
      if r.learner_id = m.learner_id ∧ r.competence_id = m.competence_id then
        m :: rest
      else
        r :: upsertMastery rest m

/-- `infer_knowledge_from_interaction` from
`knowledge_inference_service.py`: get-or-create the mastery row (initial
level `p_init`, or 0.2 when the competency row is missing), update the
success/failure counters and streak from the observation, apply the BKT
update with the competency's parameters (or the defaults), recompute the
estimator confidence, and store the row back. -/
def infer_knowledge_from_interaction (db : Store)
    (learner_id competence_id : ℤ) (score : ℚ)
    (correct : Option Bool := none) : MasteryRow × Store :=
  let competence := db.competences.find? (fun c => c.id == competence_id)
  let mastery₀ :=
    match db.masteries.find? (fun m =>
        m.learner_id == learner_id && m.competence_id == competence_id) with
    | some m => m
    | none =>
        { learner_id := learner_id
          competence_id := competence_id
          mastery_level := some (match competence with
            | some c => c.p_init
            | none => 2/10)
          confidence := none
          last_practice_date := none
          nb_success := some 0
          nb_failures := some 0
          streak_correct := some 0 }
  let is_correct := correct.getD (decide (score ≥ 50))
  let mastery₁ :=
    if is_correct then
      { mastery₀ with
          nb_success := some (pyOrZ mastery₀.nb_success 0 + 1)
          streak_correct := some (pyOrZ mastery₀.streak_correct 0 + 1) }
    else
      { mastery₀ with
          nb_failures := some (pyOrZ mastery₀.nb_failures 0 + 1)
          streak_correct := some 0 }
  let new_mastery :=
    match competence with
    | some c =>
        update_mastery (pyOrQ mastery₁.mastery_level (2/10)) score correct
          c.p_transit c.p_guess c.p_slip
    | none =>
        update_mastery (pyOrQ mastery₁.mastery_level (2/10)) score correct
  let mastery₂ :=
    { mastery₁ with
        mastery_level := some new_mastery
        last_practice_date := some db.now
        confidence := some (calculate_confidence
          (pyOrZ mastery₁.nb_success 0)
          (pyOrZ mastery₁.nb_failures 0)
          (pyOrZ mastery₁.streak_correct 0)) }
  (mastery₂, { db with masteries := upsertMastery db.masteries mastery₂ })

/-- Replace the first case row with the given id. -/
def replaceCase (rows : List CaseRow) (c : CaseRow) : List CaseRow :=
  match rows with
  | [] => []
  | r :: rest => if r.id = c.id then c :: rest else r :: replaceCase rest c

/-- `update_case_statistics` from `cas_clinique_service.py`: weighted
running averages of the learners' score and of the diagnostic success
rate; no-op when the case is missing. -/
def update_case_statistics (db : Store) (cas_id : ℤ) (score : ℚ)
    (diagnostic_correct : Bool) : Store :=
  match db.cases.find? (fun c => c.id == cas_id) with
  | none => db
  | some case =>
      let note :=
        match case.note_moyenne_apprenants with
        | none => score / 100
        | some current_avg =>
            let nb_uses := pyOrZ case.nb_utilisations 1
            (current_avg * (nb_uses - 1 : ℤ) + score / 100) / (nb_uses : ℚ)
      let taux :=
        match case.taux_succes_diagnostic with
        | none => if diagnostic_correct then 100 else 0
        | some current_rate =>
            let nb_uses := pyOrZ case.nb_utilisations 1
            let success_increment : ℚ := if diagnostic_correct then 100 else 0
            (current_rate * (nb_uses - 1 : ℤ) + success_increment) / (nb_uses : ℚ)
      let case' :=
        { case with
            note_moyenne_apprenants := some note
            taux_succes_diagnostic := some taux }
      { db with cases := replaceCase db.cases case' }

/-- Replace the first session row with the given id. -/
def replaceSession (rows : List SessionRow) (s : SessionRow) : List SessionRow :=
  match rows with
  | [] => []
  | r :: rest => if r.id = s.id then s :: rest else r :: replaceSession rest s

/-- `complete_session` from `simulation_session_service.py`: `None` when
the session is missing; otherwise record end time, elapsed time
(`now - start_time`, or 0 without a start time), final score, the
`"termine"` status and the completion reason, then update the case
statistics.  Performs no check of the session's current status. -/
def complete_session (db : Store) (session_id : ℤ) (score_final : ℚ)
    (raison_fin : String := "completed") (diagnostic_correct : Bool := false) :
    Option (SessionRow × Store) :=
  match db.sessions.find? (fun s => s.id == session_id) with
  | none => none
  | some session =>
      let temps_total :=
        match session.start_time with
        | some st => db.now - st
        | none => 0
      let session' :=
        { session with
            end_time := some db.now
            temps_total := some temps_total
            score_final := some score_final
            statut := some "termine"
            raison_fin := some raison_fin }
      let db₁ := { db with sessions := replaceSession db.sessions session' }
      some (session', update_case_statistics db₁ session.cas_clinique_id
        score_final diagnostic_correct)

/-- `get_latest_affective_state` from `affective_service.py`: the
session's affective row with the greatest timestamp (the first row of the
`ORDER BY timestamp DESC` query; on equal timestamps the earliest-stored
row is kept).  Read-only. -/
def get_latest_affective_state (db : Store) (session_id : ℤ) :
    Option AffectiveRow :=
  (db.affectives.filter (fun a => a.session_id == session_id)).foldl
    (fun acc r =>
      match acc with
      | none => some r
      | some a => if r.timestamp > a.timestamp then some r else acc)
    none

/-- `record_affective_state` from `affective_service.py`: reject when the
session is missing, otherwise append a fresh affective row. -/
def record_affective_state (db : Store) (session_id : ℤ)
    (stress_level confidence_level motivation_level frustration_level : ℚ) :
    Except String (AffectiveRow × Store) :=
  match db.sessions.find? (fun s => s.id == session_id) with
  | none => .error "Session non trouvée"
  | some _ =>
      let row : AffectiveRow :=
        { session_id := session_id
          timestamp := db.now
          stress_level := some stress_level
          confidence_level := some confidence_level
          motivation_level := some motivation_level
          frustration_level := some frustration_level }
      .ok (row, { db with affectives := db.affectives ++ [row] })

/-- `_update_session_affective_state` from `adaptation_engine.py`: advance
the affective vector from the session's latest recorded state (defaults
`0.5/0.0/0.5/0.0` when none, also per-component under null columns),
record the new state, and return the affective snapshot dict.  The
`learner_id` argument is unused by the source body. -/
def update_session_affective_state (db : Store)
    (session_id _learner_id : ℤ) (score : ℚ) :
    Except String (AffectiveOut × Store) :=
  let latest := get_latest_affective_state db session_id
  let (motivation, frustration, confidence, stress) :=
    match latest with
    | some l =>
        update_affective_state (pyOrQ l.motivation_level (1/2))
          (pyOrQ l.frustration_level 0) (pyOrQ l.confidence_level (1/2))
          (pyOrQ l.stress_level 0) score
    | none => update_affective_state (1/2) 0 (1/2) 0 score
  match record_affective_state db session_id stress confidence motivation
      frustration with
  | .error e => .error e
  | .ok (_, db₁) =>
      .ok ({ motivation := motivation
             frustration := frustration
             confidence := confidence
             stress := stress
             label := get_affective_label motivation frustration confidence
               stress }, db₁)

/-- Replace the first behavior row for the learner, appending when none
exists. -/
def upsertBehavior (rows : List BehaviorRow) (b : BehaviorRow) :
    List BehaviorRow :=
  match rows with
  | [] => [b]
  | r :: rest =>
      if r.learner_id = b.learner_id then b :: rest
      else r :: upsertBehavior rest b

/-- `_update_learner_behavior` from `adaptation_engine.py`: get-or-create
the learner's behavior row, increment the session / activity / time
counters, and recompute the engagement score. -/
def update_learner_behavior (db : Store) (learner_id session_time : ℤ) :
    Store :=
  let behavior₀ :=
    match db.behaviors.find? (fun b => b.learner_id == learner_id) with
    | some b => b
    | none =>
        { learner_id := learner_id
          sessions_count := some 0
          activities_count := some 0
          total_time_spent := some 0
          engagement_score := none }
  let sessions_count := pyOrZ behavior₀.sessions_count 0 + 1
  let activities_count := pyOrZ behavior₀.activities_count 0 + 1
  let total_time_spent := pyOrZ behavior₀.total_time_spent 0 + session_time
  let behavior₁ :=
    { behavior₀ with
        sessions_count := some sessions_count
        activities_count := some activities_count
        total_time_spent := some total_time_spent
        engagement_score := some (compute_engagement sessions_count
          activities_count total_time_spent) }
  { db with behaviors := upsertBehavior db.behaviors behavior₁ }

/-- The consolidated result dict returned by
`process_simulation_completion`. -/
structure ProcResult where
  session_id : ℤ
  learner_id : ℤ
  cas_clinique_id : ℤ
  score_final : ℚ
  diagnostic_correct : Bool
  temps_total : Option ℤ
  competences_updated : List MasteryOut
  affective_state : AffectiveOut
  recommendation : String
  next_action : NextAction
deriving DecidableEq, Repr

/-- `process_simulation_completion` from `adaptation_engine.py`: the full
orchestration — log the actions, extract competency scores and run the
BKT update per competency, compute the session score, mark the session
completed, advance the affective state, update the behavior counters, and
produce recommendation and next action.  The only rejection is
session-not-found: **no check of the session's current status is
performed**. -/
def process_simulation_completion (db : Store) (session_id : ℤ)
    (actions : List ActionIn) (_diagnostic_propose : String)
    (diagnostic_correct : Bool) : Except String (ProcResult × Store) :=
  match db.sessions.find? (fun s => s.id == session_id) with
  | none => .error "Session non trouvée"
  | some session =>
      let learner_id := session.learner_id
      let db₁ :=
        if actions = [] then db
        else create_interactions_batch db session_id actions
      let competence_scores := extract_competences_from_actions db₁ session_id
      let (updated_masteries, db₂) :=
        competence_scores.foldl
          (fun acc p =>
            let (ms, db') := acc
            let (comp_id, scores) := p
            let avg_score :=
              if scores = [] then 0 else scores.sum / scores.length
            let (mastery, db'') :=
              infer_knowledge_from_interaction db' learner_id comp_id avg_score
            (ms ++ [{ competence_id := comp_id
                      mastery_level := pyRound2 (pyOrQ mastery.mastery_level 0)
                      confidence := pyRound2 (pyOrQ mastery.confidence 0)
                      : MasteryOut }], db''))
          (([] : List MasteryOut), db₁)
      let score_final := calculate_session_score competence_scores
        diagnostic_correct
      match complete_session db₂ session_id score_final "completed"
          diagnostic_correct with
      | none => .error "Session non trouvée"
      | some (session', db₃) =>
          match update_session_affective_state db₃ session_id learner_id
              score_final with
          | .error e => .error e
          | .ok (affective_result, db₄) =>
              let db₅ := update_learner_behavior db₄ learner_id
                (pyOrZ session'.temps_total 0)
              let recommendation := generate_pedagogical_recommendation
                score_final updated_masteries affective_result
              let next_action := get_next_action score_final updated_masteries
                affective_result
              .ok ({ session_id := session_id
                     learner_id := learner_id
                     cas_clinique_id := session'.cas_clinique_id
                     score_final := score_final
                     diagnostic_correct := diagnostic_correct
                     temps_total := session'.temps_total
                     competences_updated := updated_masteries
                     affective_state := affective_result
                     recommendation := recommendation
                     next_action := next_action }, db₅)

/-! ## Adaptation summary (read-only reporting) -/

/-- `compute_progress` from `performance_service.py`. -/
def compute_progress (scores : List ℚ) : ℚ :=
  if scores.length < 2 then 0
  else (scores.getLast?.getD 0) - (scores.head?.getD 0)

/-- `compute_average_score` from `performance_service.py`. -/
def compute_average_score (scores : List ℚ) : ℚ :=
  if scores = [] then 0 else scores.sum / scores.length

/-- `compute_trend` from `performance_service.py`. -/
def compute_trend (scores : List ℚ) : String :=
  if scores.length < 2 then "stable"
  else
    let recent_avg :=
      if scores.length ≥ 3 then (scores.drop (scores.length - 3)).sum / 3
      else scores.getLast?.getD 0
    let earlier_avg :=
      if scores.length ≥ 3 then (scores.take 3).sum / 3
      else scores.head?.getD 0
    let difference := recent_avg - earlier_avg
    if difference > 5 then "improving"
    else if difference < -5 then "declining"
    else "stable"

/-- `performance_indicator` from `performance_service.py`. -/
def performance_indicator (score : ℚ) : String :=
  if score ≥ 80 then "excellent"
  else if score ≥ 60 then "bon"
  else if score ≥ 40 then "moyen"
  else "faible"

/-- Maximum of a score list (used only on nonempty lists, as in
`max(scores)`). -/
def listMaxQ : List ℚ → ℚ
  | [] => 0
  | x :: xs => xs.foldl max x

/-- Minimum of a score list. -/
def listMinQ : List ℚ → ℚ
  | [] => 0
  | x :: xs => xs.foldl min x

/-- Stable ascending insertion by `start_time` (the `ORDER BY start_time`
of the performance query; NULL start times sort first). -/
def startTimeLe (a b : Option ℤ) : Bool :=
  match a, b with
  | none, _ => true
  | some _, none => false
  | some x, some y => x ≤ y

/-- Insert into a `start_time`-sorted session list, keeping equal keys in
their original order. -/
def insertByStart (x : SessionRow) : List SessionRow → List SessionRow
  | [] => [x]
  | y :: ys =>
      if startTimeLe x.start_time y.start_time then x :: y :: ys
      else y :: insertByStart x ys

/-- Stable sort of sessions by ascending `start_time`. -/
def sortByStart (l : List SessionRow) : List SessionRow :=
  l.foldr insertByStart []

/-- One element of the `sessions` list of the performance stats (note the
truthiness test on `score_final`: a score of exactly 0 yields "N/A"). -/
structure PerfSessionEntry where
  id : String
  cas_clinique_id : ℤ
  score : Option ℚ
  indicator : String
  temps_total : Option ℤ
  start_time : Option ℤ
  raison_fin : Option String
deriving DecidableEq, Repr

/-- The performance stats dict.  The no-session branch of the source
returns a dict lacking `completed_sessions`, `progress` and
`average_time_per_session`; those fields are `Option`s. -/
structure PerfStats where
  learner_id : ℤ
  total_sessions : ℤ
  completed_sessions : Option ℤ
  average_score : ℚ
  best_score : ℚ
  worst_score : ℚ
  progress : Option ℚ
  trend : String
  total_time_spent : ℤ
  average_time_per_session : Option ℚ
  sessions : List PerfSessionEntry
deriving DecidableEq, Repr

/-- `get_learner_performance_stats` from `performance_service.py`:
statistics over the learner's `"termine"` sessions ordered by start time.
Read-only. -/
def get_learner_performance_stats (db : Store) (learner_id : ℤ) : PerfStats :=
  let sessions := sortByStart (db.sessions.filter (fun s =>
    s.learner_id == learner_id && s.statut == some "termine"))
  if sessions = [] then
    { learner_id := learner_id
      total_sessions := 0
      completed_sessions := none
      average_score := 0
      best_score := 0
      worst_score := 0
      progress := none
      trend := "stable"
      total_time_spent := 0
      average_time_per_session := none
      sessions := [] }
  else
    let scores := sessions.filterMap (fun s => s.score_final)
    let times := (sessions.filterMap (fun s => s.temps_total)).filter
      (fun t => t ≠ 0)
    { learner_id := learner_id
      total_sessions := sessions.length
      completed_sessions := some sessions.length
      average_score := pyRound2 (compute_average_score scores)
      best_score := if scores = [] then 0 else listMaxQ scores
      worst_score := if scores = [] then 0 else listMinQ scores
      progress := some (pyRound2 (compute_progress scores))
      trend := compute_trend scores
      total_time_spent := if times = [] then 0 else times.sum
      average_time_per_session :=
        if times = [] then some 0
        else some (pyRound2 ((times.sum : ℚ) / times.length))
      sessions := sessions.map (fun s =>
        { id := toString s.id
          cas_clinique_id := s.cas_clinique_id
          score := s.score_final
          indicator :=
            match s.score_final with
            | some sc => if sc = 0 then "N/A" else performance_indicator sc
            | none => "N/A"
          temps_total := s.temps_total
          start_time := s.start_time
          raison_fin := s.raison_fin }) }

/-- One competency detail of the knowledge summary. -/
structure KnowledgeCompetenceDetail where
  competence_id : ℤ
  competence_code : String
  competence_nom : String
  mastery_level : ℚ
  confidence : ℚ
  nb_success : ℤ
  nb_failures : ℤ
  last_practice : Option ℤ
deriving DecidableEq, Repr

/-- The knowledge summary dict. -/
structure KnowledgeSummary where
  learner_id : ℤ
  total_competences : ℤ
  average_mastery : ℚ
  mastered_competences : ℤ
  competences : List KnowledgeCompetenceDetail
deriving DecidableEq, Repr

/-- Insert into a mastery-level descending-sorted detail list keeping
equal keys in original order (Python's stable `sort(reverse=True)`). -/
def insertByMasteryDesc (x : KnowledgeCompetenceDetail) :
    List KnowledgeCompetenceDetail → List KnowledgeCompetenceDetail
  | [] => [x]
  | y :: ys =>
      if x.mastery_level ≥ y.mastery_level then x :: y :: ys
      else y :: insertByMasteryDesc x ys

/-- Stable descending sort by `mastery_level`. -/
def sortByMasteryDesc (l : List KnowledgeCompetenceDetail) :
    List KnowledgeCompetenceDetail :=
  l.foldr insertByMasteryDesc []

/-- `get_learner_knowledge_summary` from
`knowledge_inference_service.py`.  Read-only. -/
def get_learner_knowledge_summary (db : Store) (learner_id : ℤ) :
    KnowledgeSummary :=
  let masteries := db.masteries.filter (fun m => m.learner_id == learner_id)
  if masteries = [] then
    { learner_id := learner_id
      total_competences := 0
      average_mastery := 0
      mastered_competences := 0
      competences := [] }
  else
    let total_mastery := (masteries.map (fun m => pyOrQ m.mastery_level 0)).sum
    let average_mastery := total_mastery / masteries.length
    let mastered := (masteries.filter (fun m =>
      decide (pyOrQ m.mastery_level 0 ≥ 8/10))).length
    let details := masteries.map (fun m =>
      let comp := db.competences.find? (fun c => c.id == m.competence_id)
      { competence_id := m.competence_id
        competence_code := (comp.map (·.code_competence)).getD "Unknown"
        competence_nom := (comp.map (·.nom)).getD "Unknown"
        mastery_level := pyRound2 (pyOrQ m.mastery_level 0)
        confidence := pyRound2 (pyOrQ m.confidence 0)
        nb_success := pyOrZ m.nb_success 0
        nb_failures := pyOrZ m.nb_failures 0
        last_practice := m.last_practice_date
        : KnowledgeCompetenceDetail })
    { learner_id := learner_id
      total_competences := masteries.length
      average_mastery := pyRound2 average_mastery
      mastered_competences := mastered
      competences := sortByMasteryDesc details }

/-- `_get_recommendations` from `behavior_service.py`. -/
def behavior_recommendations (engagement activity_rate consistency : ℚ) :
    List String :=
  let recommendations :=
    (if engagement < 3/10 then
      ["L’apprenant est désengagé. Envisager une intervention pédagogique."]
     else if engagement < 1/2 then
      ["L’engagement est faible. Proposer des activités plus motivantes."]
     else []) ++
    (if activity_rate < 1 then
      ["Le taux d’activité est faible. Encourager plus d’activités par session."]
     else []) ++
    (if consistency < 1/2 then
      ["L’engagement est irrégulier. Établir une routine d’apprentissage."]
     else [])
  if recommendations = [] then
    ["L’apprenant montre un bon engagement et une bonne cohérence."]
  else recommendations

/-- `compute_activity_rate` from `behavior_service.py`. -/
def compute_activity_rate (activities sessions : ℤ) : ℚ :=
  if sessions = 0 then 0 else (activities : ℚ) / sessions

/-- `detect_disengagement` from `behavior_service.py`. -/
def detect_disengagement (sessions activities time_spent : ℤ)
    (threshold : ℚ := 3/10) : Bool :=
  compute_engagement sessions activities time_spent < threshold

/-- The behavior profile dict.  The behavior-row-missing branch of
`get_adaptation_summary` builds a four-key dict; the missing keys are
`Option`s set to `none` there. -/
structure BehaviorProfile where
  engagement_score : ℚ
  engagement_label : String
  sessions : ℤ
  activities : ℤ
  total_time_spent : Option ℤ
  average_time_per_activity : Option ℚ
  activity_rate : Option ℚ
  is_disengaged : Option Bool
  consistency : Option ℚ
  recommendations : Option (List String)
deriving DecidableEq, Repr

/-- `get_behavior_profile` from `behavior_service.py`, as invoked by the
engine: every call site omits the optional `activity_times` argument, so
`consistency` is the constant fallback 0.5. -/
def get_behavior_profile (sessions activities time_spent : ℤ) :
    BehaviorProfile :=
  let engagement := compute_engagement sessions activities time_spent
  let activity_rate := compute_activity_rate activities sessions
  let is_disengaged := detect_disengagement sessions activities time_spent
  let consistency : ℚ := 1/2
  { engagement_score := pyRound2 engagement
    engagement_label := get_engagement_label engagement
    sessions := sessions
    activities := activities
    total_time_spent := some time_spent
    average_time_per_activity :=
      some (if activities > 0 then pyRound2 ((time_spent : ℚ) / activities)
            else 0)
    activity_rate := some (pyRound2 activity_rate)
    is_disengaged := some is_disengaged
    consistency := some (pyRound2 consistency)
    recommendations := some (behavior_recommendations engagement
      activity_rate consistency) }

/-- The affective-state part of the summary: either the latest recorded
vector with its label, or a label-only dict ("Non évalué" /
"Aucune session"). -/
inductive AffectiveSummary where
  | state (motivation frustration confidence stress : Option ℚ)
      (label : String) : AffectiveSummary
  | labelOnly (label : String) : AffectiveSummary
deriving DecidableEq, Repr

/-- The overall-status dict of `_determine_overall_status`. -/
structure StatusOut where
  level : String
  composite_score : ℚ
  description : String
deriving DecidableEq, Repr

/-- `_determine_overall_status` from `adaptation_engine.py`. -/
def determine_overall_status (avg_mastery avg_score engagement : ℚ) :
    StatusOut :=
  let composite_score :=
    avg_mastery * (4/10) + avg_score / 100 * (4/10) + engagement * (2/10)
  let (level, description) :=
    if composite_score ≥ 8/10 then
      ("excellent", "Performance excellente sur tous les axes")
    else if composite_score ≥ 6/10 then
      ("good", "Bonne progression générale")
    else if composite_score ≥ 4/10 then
      ("moderate", "Progression modérée, nécessite plus de pratique")
    else
      ("needs_improvement", "Nécessite un accompagnement renforcé")
  { level := level
    composite_score := pyRound2 composite_score
    description := description }

/-- The `generated_at` field holds the *symbolic* SQL expression
`func.now()`: the source never evaluates it, it is returned as-is. -/
inductive SqlExpr where
  | now : SqlExpr
deriving DecidableEq, Repr

/-- The consolidated summary dict of `get_adaptation_summary`. -/
structure Summary where
  learner_id : ℤ
  knowledge_model : KnowledgeSummary
  performance_model : PerfStats
  behavioral_model : BehaviorProfile
  affective_state : AffectiveSummary
  overall_status : StatusOut
  generated_at : SqlExpr
deriving DecidableEq, Repr

/-- The learner's session with the greatest `start_time` (first row of
the `ORDER BY start_time DESC` query; NULL start times sort last, equal
keys keep the earliest-stored row). -/
def latestSessionOf (db : Store) (learner_id : ℤ) : Option SessionRow :=
  (db.sessions.filter (fun s => s.learner_id == learner_id)).foldl
    (fun acc r =>
      match acc with
      | none => some r
      | some a =>
          match r.start_time, a.start_time with
          | some x, some y => if x > y then some r else acc
          | some _, none => some r
          | none, _ => acc)
    none

/-- `get_adaptation_summary` from `adaptation_engine.py`: assemble the
knowledge, performance, behavioral and affective models plus the overall
status.  Every sub-call is a read (no `add`/`commit` anywhere on this
path), so the store is returned unchanged. -/
def get_adaptation_summary (db : Store) (learner_id : ℤ) : Summary × Store :=
  let knowledge := get_learner_knowledge_summary db learner_id
  let performance := get_learner_performance_stats db learner_id
  let behavior := db.behaviors.find? (fun b => b.learner_id == learner_id)
  let behavior_profile :=
    match behavior with
    | some b =>
        get_behavior_profile (pyOrZ b.sessions_count 0)
          (pyOrZ b.activities_count 0) (pyOrZ b.total_time_spent 0)
    | none =>
        { engagement_score := 0
          engagement_label := "Non évalué"
          sessions := 0
          activities := 0
          total_time_spent := none
          average_time_per_activity := none
          activity_rate := none
          is_disengaged := none
          consistency := none
          recommendations := none }
  let affective_state :=
    match latestSessionOf db learner_id with
    | none => AffectiveSummary.labelOnly "Aucune session"
    | some latest_session =>
        match get_latest_affective_state db latest_session.id with
        | none => AffectiveSummary.labelOnly "Non évalué"
        | some la =>
            AffectiveSummary.state la.motivation_level la.frustration_level
              la.confidence_level la.stress_level
              (get_affective_label (pyOrQ la.motivation_level (1/2))
                (pyOrQ la.frustration_level 0)
                (pyOrQ la.confidence_level (1/2))
                (pyOrQ la.stress_level 0))
  let overall_status := determine_overall_status knowledge.average_mastery
    performance.average_score behavior_profile.engagement_score
  ({ learner_id := learner_id
     knowledge_model := knowledge
     performance_model := performance
     behavioral_model := behavior_profile
     affective_state := affective_state
     overall_status := overall_status
     generated_at := SqlExpr.now }, db)

/-! ## Theorems

`Rat`'s arithmetic is `irreducible` by default, which blocks `decide` on
concrete rational computations; make it semireducible locally (an
elaboration-only change, invisible to the kernel). -/

set_option allowUnsafeReducibility true

attribute [local semireducible] Rat.add Rat.mul Rat.sub Rat.div Rat.inv Rat.neg Rat.normalize Rat.maybeNormalize Rat.floor Rat.ceil

/-! ## Basic lemmas about the clamp -/

theorem clamp01_nonneg (x : ℚ) : 0 ≤ clamp01 x := le_max_left _ _

theorem clamp01_le_one (x : ℚ) : clamp01 x ≤ 1 :=
  max_le (by norm_num) (min_le_left _ _)

theorem clamp01_eq_self {x : ℚ} (h0 : 0 ≤ x) (h1 : x ≤ 1) : clamp01 x = x := by
  unfold clamp01
  rw [min_eq_right h1, max_eq_right h0]

theorem clamp01_idem (x : ℚ) : clamp01 (clamp01 x) = clamp01 x :=
  clamp01_eq_self (clamp01_nonneg x) (clamp01_le_one x)

/-! ## C2 -/

/-- **C2.** For every mastery in [0,1], every `p_transit`, `p_guess`,
`p_slip` in [0,1], and either observed outcome, the single-step BKT update
(posterior given the observation, then transition
`p_obs + (1-p_obs)*p_transit`) returns a value in [0,1]. -/
theorem bkt_update_mem_unit (p_mastery p_transit p_guess p_slip : ℚ)
    (correct : Bool)
    (hm : 0 ≤ p_mastery ∧ p_mastery ≤ 1) (ht : 0 ≤ p_transit ∧ p_transit ≤ 1)
    (hg : 0 ≤ p_guess ∧ p_guess ≤ 1) (hs : 0 ≤ p_slip ∧ p_slip ≤ 1) :
    0 ≤ bkt_update p_mastery correct p_transit p_guess p_slip ∧
      bkt_update p_mastery correct p_transit p_guess p_slip ≤ 1 :=
  ⟨clamp01_nonneg _, clamp01_le_one _⟩

/-- Witness for C2 at the default BKT parameters. -/
theorem bkt_update_mem_unit_witness :
    0 ≤ bkt_update (2/10) true (15/100) (2/10) (1/10) ∧
      bkt_update (2/10) true (15/100) (2/10) (1/10) ≤ 1 :=
  bkt_update_mem_unit (2/10) (15/100) (2/10) (1/10) true
    ⟨by norm_num, by norm_num⟩ ⟨by norm_num, by norm_num⟩
    ⟨by norm_num, by norm_num⟩ ⟨by norm_num, by norm_num⟩

/-! ## C10 -/

/-- **C10.** The BKT update is total over arbitrary rational inputs: it
first clamps the incoming mastery and all three parameters to [0,1]
(so it computes the same value as on the pre-clamped inputs), and the
returned mastery is always in [0,1]; no error is raised (the function is
total by construction, including the zero-denominator guard). -/
theorem bkt_update_total (p_mastery p_transit p_guess p_slip : ℚ)
    (correct : Bool) :
    bkt_update p_mastery correct p_transit p_guess p_slip =
      bkt_update (clamp01 p_mastery) correct (clamp01 p_transit)
        (clamp01 p_guess) (clamp01 p_slip) ∧
    0 ≤ bkt_update p_mastery correct p_transit p_guess p_slip ∧
      bkt_update p_mastery correct p_transit p_guess p_slip ≤ 1 := by
  refine ⟨?_, clamp01_nonneg _, clamp01_le_one _⟩
  simp only [bkt_update, clamp01_idem]

/-! ## C6 -/

/-- **C6.** Whenever the BKT posterior's denominator is exactly zero, the
update neither divides by zero nor surfaces an error: the posterior falls
back to the prior mastery, and the update completes as the plain learning
transition applied to the prior. -/
theorem bkt_update_degenerate (p_mastery p_transit p_guess p_slip : ℚ)
    (correct : Bool)
    (hm : 0 ≤ p_mastery ∧ p_mastery ≤ 1) (ht : 0 ≤ p_transit ∧ p_transit ≤ 1)
    (hg : 0 ≤ p_guess ∧ p_guess ≤ 1) (hs : 0 ≤ p_slip ∧ p_slip ≤ 1)
    (hden : bktDenom p_mastery correct p_guess p_slip = 0) :
    bktPosterior p_mastery correct p_guess p_slip = p_mastery ∧
    bkt_update p_mastery correct p_transit p_guess p_slip =
      clamp01 (p_mastery + (1 - p_mastery) * p_transit) := by
  constructor
  · simp [bktPosterior, hden]
  · simp only [bkt_update, clamp01_eq_self hm.1 hm.2,
      clamp01_eq_self ht.1 ht.2, clamp01_eq_self hg.1 hg.2,
      clamp01_eq_self hs.1 hs.2]
    simp [bktPosterior, hden]

/-- Witness for C6: a learner with mastery 0 and guess probability 0 makes
a correct observation impossible, so the denominator is 0. -/
theorem bkt_update_degenerate_witness :
    bktDenom 0 true 0 (1/10) = 0 ∧
    (bktPosterior 0 true 0 (1/10) = 0 ∧
      bkt_update 0 true (15/100) 0 (1/10) =
        clamp01 (0 + (1 - 0) * (15/100))) :=
  ⟨by decide,
    bkt_update_degenerate 0 (15/100) 0 (1/10) true
      ⟨by norm_num, by norm_num⟩ ⟨by norm_num, by norm_num⟩
      ⟨by norm_num, by norm_num⟩ ⟨by norm_num, by norm_num⟩ (by decide)⟩

/-! ## C5: repeated correct observations -/

/-- The mastery sequence obtained by repeatedly applying `bkt_update`
with `correct := true` and fixed parameters. -/
def bktIter (m t g s : ℚ) : ℕ → ℚ
  | 0 => m
  | n + 1 => bkt_update (bktIter m t g s n) true t g s

theorem bktIter_succ (m t g s : ℚ) (n : ℕ) :
    bktIter m t g s (n + 1) = bkt_update (bktIter m t g s n) true t g s := rfl

/-- On a correct observation with well-posed parameters (`g + s ≤ 1`),
the posterior is at least the prior and at most 1. -/
theorem bktPosterior_correct_bounds (x g s : ℚ) (hx0 : 0 ≤ x) (hx1 : x ≤ 1)
    (hg0 : 0 ≤ g) (hs0 : 0 ≤ s) (hgs : g + s ≤ 1) :
    x ≤ bktPosterior x true g s ∧ bktPosterior x true g s ≤ 1 := by
  unfold bktPosterior bktDenom
  simp only [if_true]
  by_cases hzero : x * (1 - s) + (1 - x) * g = 0
  · simp only [hzero, if_pos rfl]
    exact ⟨le_refl x, hx1⟩
  · have hdnn : 0 ≤ x * (1 - s) + (1 - x) * g := by nlinarith
    have hdpos : 0 < x * (1 - s) + (1 - x) * g :=
      lt_of_le_of_ne hdnn (Ne.symm hzero)
    rw [if_neg hzero]
    constructor
    · rw [le_div_iff hdpos]
      nlinarith [mul_nonneg (mul_nonneg hx0 (sub_nonneg.mpr hx1))
        (show (0:ℚ) ≤ 1 - s - g by linarith)]
    · rw [div_le_one hdpos]
      nlinarith

/-- One step of `bkt_update` with `correct := true` and well-posed
parameters moves the mastery at least as far as the pure learning
transition, and never above 1. -/
theorem bkt_step_bounds (x t g s : ℚ) (hx0 : 0 ≤ x) (hx1 : x ≤ 1)
    (ht0 : 0 < t) (ht1 : t ≤ 1) (hg0 : 0 ≤ g) (hs0 : 0 ≤ s)
    (hgs : g + s ≤ 1) :
    x + (1 - x) * t ≤ bkt_update x true t g s ∧
      bkt_update x true t g s ≤ 1 := by
  have hg1 : g ≤ 1 := by linarith
  have hs1 : s ≤ 1 := by linarith
  have hpost := bktPosterior_correct_bounds x g s hx0 hx1 hg0 hs0 hgs
  have hpost0 : 0 ≤ bktPosterior x true g s := le_trans hx0 hpost.1
  simp only [bkt_update, clamp01_eq_self hx0 hx1,
    clamp01_eq_self ht0.le ht1, clamp01_eq_self hg0 hg1,
    clamp01_eq_self hs0 hs1]
  have hval0 : 0 ≤ bktPosterior x true g s +
      (1 - bktPosterior x true g s) * t := by nlinarith [hpost.2]
  have hval1 : bktPosterior x true g s +
      (1 - bktPosterior x true g s) * t ≤ 1 := by nlinarith [hpost.2]
  rw [clamp01_eq_self hval0 hval1]
  exact ⟨by nlinarith [hpost.1], hval1⟩

/-- **C5 (amended).** For every starting mastery in [0,1] and parameters
in [0,1] with `p_transit > 0` **and `p_guess + p_slip ≤ 1`** (the
well-posedness condition the original claim omits), repeatedly applying
the BKT update with `correct := true` strictly increases the mastery
while it is below 1, never exceeds 1, and converges to 1. -/
theorem bkt_repeated_correct_monotone (m t g s : ℚ)
    (hm0 : 0 ≤ m) (hm1 : m ≤ 1) (ht0 : 0 < t) (ht1 : t ≤ 1)
    (hg0 : 0 ≤ g) (hs0 : 0 ≤ s) (hgs : g + s ≤ 1) :
    (∀ n, bktIter m t g s n < 1 →
      bktIter m t g s n < bktIter m t g s (n + 1)) ∧
    (∀ n, bktIter m t g s n ≤ 1) ∧
    (∀ ε : ℚ, 0 < ε → ∃ N, ∀ n, N ≤ n → 1 - bktIter m t g s n < ε) := by
  have hbounds : ∀ n, 0 ≤ bktIter m t g s n ∧ bktIter m t g s n ≤ 1 := by
    intro n
    induction n with
    | zero => exact ⟨hm0, hm1⟩
    | succ k ih =>
        have h := bkt_step_bounds (bktIter m t g s k) t g s ih.1 ih.2
          ht0 ht1 hg0 hs0 hgs
        rw [bktIter_succ]
        exact ⟨le_trans (by nlinarith [ih.1, ih.2]) h.1, h.2⟩
  have hstep : ∀ n, bktIter m t g s n + (1 - bktIter m t g s n) * t ≤
      bktIter m t g s (n + 1) := by
    intro n
    rw [bktIter_succ]
    exact (bkt_step_bounds _ t g s (hbounds n).1 (hbounds n).2
      ht0 ht1 hg0 hs0 hgs).1
  refine ⟨?_, fun n => (hbounds n).2, ?_⟩
  · intro n hlt
    have h := hstep n
    nlinarith [mul_pos (show (0:ℚ) < 1 - bktIter m t g s n by linarith) ht0]
  · have hgeom : ∀ n, 1 - bktIter m t g s n ≤ (1 - t) ^ n * (1 - m) := by
      intro n
      induction n with
      | zero => simp [bktIter]
      | succ k ih =>
          have h1 : 1 - bktIter m t g s (k + 1) ≤
              (1 - bktIter m t g s k) * (1 - t) := by
            have := hstep k
            nlinarith
          calc 1 - bktIter m t g s (k + 1) ≤
                (1 - bktIter m t g s k) * (1 - t) := h1
            _ ≤ ((1 - t) ^ k * (1 - m)) * (1 - t) :=
                mul_le_mul_of_nonneg_right ih (by linarith)
            _ = (1 - t) ^ (k + 1) * (1 - m) := by ring
    intro ε hε
    obtain ⟨N, hN⟩ := exists_pow_lt_of_lt_one hε (show 1 - t < 1 by linarith)
    refine ⟨N, fun n hn => ?_⟩
    have h1t0 : (0:ℚ) ≤ 1 - t := by linarith
    calc 1 - bktIter m t g s n ≤ (1 - t) ^ n * (1 - m) := hgeom n
      _ ≤ (1 - t) ^ n * 1 :=
          mul_le_mul_of_nonneg_left (by linarith) (pow_nonneg h1t0 n)
      _ = (1 - t) ^ n := by ring
      _ ≤ (1 - t) ^ N := pow_le_pow_of_le_one h1t0 (by linarith) hn
      _ < ε := hN

/-- Witness for C5 (amended) at the default parameters. -/
theorem bkt_repeated_correct_monotone_witness :
    (∀ n, bktIter (2/10) (15/100) (2/10) (1/10) n < 1 →
      bktIter (2/10) (15/100) (2/10) (1/10) n <
        bktIter (2/10) (15/100) (2/10) (1/10) (n + 1)) ∧
    (∀ n, bktIter (2/10) (15/100) (2/10) (1/10) n ≤ 1) ∧
    (∀ ε : ℚ, 0 < ε → ∃ N, ∀ n, N ≤ n →
      1 - bktIter (2/10) (15/100) (2/10) (1/10) n < ε) :=
  bkt_repeated_correct_monotone (2/10) (15/100) (2/10) (1/10)
    (by norm_num) (by norm_num) (by norm_num) (by norm_num)
    (by norm_num) (by norm_num) (by norm_num)

/-- **C5 counterexample.** With parameters all in [0,1] and
`p_transit = 0.01 > 0` but `p_guess = p_slip = 0.9` (so
`p_guess + p_slip > 1`), one correct observation strictly *decreases*
the mastery 0.5 (to 0.109): the claim as stated — strict increase while
below 1 for arbitrary valid parameters with `p_transit > 0` — is false. -/
theorem bkt_repeated_correct_monotone_cex :
    bktIter (1/2) (1/100) (9/10) (9/10) 0 < 1 ∧
    bktIter (1/2) (1/100) (9/10) (9/10) 1 <
      bktIter (1/2) (1/100) (9/10) (9/10) 0 := by
  constructor
  · norm_num [bktIter]
  · norm_num [bktIter, bkt_update, bktPosterior, bktDenom, clamp01]

/-! ## C3: the recommended difficulty -/

theorem avgMastery_bounds (masteries : List MasteryOut)
    (hb : ∀ mo ∈ masteries, 0 ≤ mo.mastery_level ∧ mo.mastery_level ≤ 1) :
    0 ≤ avgMastery masteries ∧ avgMastery masteries ≤ 1 := by
  unfold avgMastery
  by_cases h : masteries = []
  · rw [if_pos h]
    norm_num
  · rw [if_neg h]
    have hlen0 : 0 < masteries.length := List.length_pos.mpr h
    have hlen : (0:ℚ) < (masteries.length : ℚ) := by exact_mod_cast hlen0
    constructor
    · apply div_nonneg _ hlen.le
      apply List.sum_nonneg
      intro x hx
      obtain ⟨mo, hmo, rfl⟩ := List.mem_map.mp hx
      exact (hb mo hmo).1
    · rw [div_le_one hlen]
      have h1 : (masteries.map (·.mastery_level)).sum ≤
          (masteries.map (·.mastery_level)).length • (1:ℚ) := by
        apply List.sum_le_card_nsmul
        intro x hx
        obtain ⟨mo, hmo, rfl⟩ := List.mem_map.mp hx
        exact (hb mo hmo).2
      simpa [nsmul_eq_mul] using h1

/-- A neutral affective snapshot used as concrete input. -/
def neutralAffective : AffectiveOut :=
  { motivation := 1/2
    frustration := 0
    confidence := 1/2
    stress := 0
    label := "Neutre" }

/-- **C3 (amended).** With every per-competency mastery in [0,1]: the
override — difficulty 1 and `action_type = "revise_fundamentals"`
whenever score < 40 or frustration > 0.7 — holds and takes precedence,
and the recommended difficulty always lies in [1,5]; but outside the
override the difficulty is derived from the *truncation*
`int(avg_mastery * 5)` with branch-dependent adjustment (lower bound 1,
or increment capped at 5), not from `round(avg_mastery * 5)`. -/
theorem next_action_difficulty_bounds (score : ℚ)
    (masteries : List MasteryOut) (affective : AffectiveOut)
    (hb : ∀ mo ∈ masteries, 0 ≤ mo.mastery_level ∧ mo.mastery_level ≤ 1) :
    ((score < 40 ∨ affective.frustration > 7/10) →
      (get_next_action score masteries affective).action_type =
          "revise_fundamentals" ∧
      (get_next_action score masteries affective).recommended_difficulty = 1) ∧
    1 ≤ (get_next_action score masteries affective).recommended_difficulty ∧
    (get_next_action score masteries affective).recommended_difficulty ≤ 5 := by
  obtain ⟨havg0, havg1⟩ := avgMastery_bounds masteries hb
  have hfl0 : 0 ≤ ⌊avgMastery masteries * 5⌋ :=
    Int.floor_nonneg.mpr (by nlinarith)
  have hfl5 : ⌊avgMastery masteries * 5⌋ ≤ 5 := by
    have h5 : ⌊avgMastery masteries * 5⌋ ≤ ⌊(5:ℚ)⌋ :=
      Int.floor_mono (by nlinarith)
    simpa using h5
  have hpy : pyInt (avgMastery masteries * 5) = ⌊avgMastery masteries * 5⌋ :=
    if_pos (by nlinarith)
  simp only [get_next_action]
  by_cases h1 : score < 40 ∨ affective.frustration > 7/10
  · rw [if_pos h1]
    exact ⟨fun _ => ⟨rfl, rfl⟩, by norm_num, by norm_num⟩
  · rw [if_neg h1]
    refine ⟨fun hc => absurd hc h1, ?_⟩
    by_cases h2 : score < 60 ∨ avgMastery masteries < 4/10
    · rw [if_pos h2]
      exact ⟨le_max_left _ _, max_le (by norm_num) (hpy ▸ hfl5)⟩
    · rw [if_neg h2]
      push_neg at h2
      have hge : 4/10 ≤ avgMastery masteries := h2.2
      have hfl1 : 1 ≤ ⌊avgMastery masteries * 5⌋ := by
        apply Int.le_floor.mpr
        push_cast
        nlinarith
      by_cases h3 : score < 80
      · rw [if_pos h3]
        by_cases h4 : affective.confidence < 1/2
        · rw [if_pos h4]
          exact ⟨le_max_left _ _, max_le (by norm_num) (hpy ▸ hfl5)⟩
        · rw [if_neg h4]
          refine ⟨le_min (by norm_num) ?_, min_le_left _ _⟩
          rw [hpy]
          omega
      · rw [if_neg h3]
        by_cases h4 : avgMastery masteries ≥ 8/10 ∧ affective.motivation > 7/10
        · rw [if_pos h4]
          refine ⟨le_min (by norm_num) ?_, min_le_left _ _⟩
          rw [hpy]
          omega
        · rw [if_neg h4]
          exact ⟨hpy ▸ hfl1, hpy ▸ hfl5⟩

/-- Witness for C3 (amended): a score below 40 triggers the override. -/
theorem next_action_difficulty_bounds_witness :
    (((30:ℚ) < 40 ∨ neutralAffective.frustration > 7/10) →
      (get_next_action 30 [] neutralAffective).action_type =
          "revise_fundamentals" ∧
      (get_next_action 30 [] neutralAffective).recommended_difficulty = 1) ∧
    1 ≤ (get_next_action 30 [] neutralAffective).recommended_difficulty ∧
    (get_next_action 30 [] neutralAffective).recommended_difficulty ≤ 5 :=
  next_action_difficulty_bounds 30 [] neutralAffective (by simp)

/-- **C3 counterexample.** At score 50 with a single mastery 0.58 and a
neutral affect, the source computes `max(1, int(0.58*5)) = max(1, 2) = 2`
(truncation), while the claimed formula `round(avg_mastery * 5)` bounded
to [1,5] gives `round(2.9) = 3`: the difficulty does not equal the
claimed mastery-derived value. -/
theorem next_action_difficulty_not_round_cex :
    (get_next_action 50
        [{ competence_id := 1, mastery_level := 58/100, confidence := 1/2 }]
        neutralAffective).recommended_difficulty = 2 ∧
    max 1 (min 5 (pyRoundInt ((58/100 : ℚ) * 5))) = 3 := by
  constructor
  · decide
  · decide

/-! ## C4: the session score -/

/-- The session-score formula in the spec's words: 80/20 from the
diagnostic when no competency scores were extracted, otherwise
`0.6 * mean(all observed competency scores) + 0.4 * (100 if
diagnostic_correct else 0)`, clamped to [0,100] and rounded to 2
decimals. -/
def sessionScoreSpec (competence_scores : List (ℤ × List ℚ))
    (diagnostic_correct : Bool) : ℚ :=
  if competence_scores = [] then
    if diagnostic_correct then 80 else 20
  else
    let all_scores := (competence_scores.map Prod.snd).flatten
    let mean := all_scores.sum / all_scores.length
    let diag : ℚ := if diagnostic_correct then 100 else 0
    pyRound2 (min 100 (max 0 (6/10 * mean + 4/10 * diag)))

/-- **C4.** On every completion whose extracted competency scores are
either absent or nonempty (the only shapes the extraction step
produces), the session score computed by the orchestrator equals the
spec's formula; in particular `competence_scores = {5: [40, 60]}` with a
correct diagnostic yields exactly 70. -/
theorem calculate_session_score_spec (competence_scores : List (ℤ × List ℚ))
    (diagnostic_correct : Bool)
    (h : competence_scores = [] ∨
      (competence_scores.map Prod.snd).flatten ≠ []) :
    calculate_session_score competence_scores diagnostic_correct =
      sessionScoreSpec competence_scores diagnostic_correct ∧
    calculate_session_score [(5, [40, 60])] true = 70 := by
  refine ⟨?_, by decide⟩
  rcases h with h | h
  · simp [calculate_session_score, sessionScoreSpec, h]
  · have hne : competence_scores ≠ [] := by
      intro hc
      rw [hc] at h
      simp at h
    simp only [calculate_session_score, sessionScoreSpec, if_neg hne,
      if_neg h]
    congr 2
    ring_nf

/-- Witness for C4 at the spec's end-to-end scenario. -/
theorem calculate_session_score_spec_witness :
    calculate_session_score [(5, [40, 60])] true =
      sessionScoreSpec [(5, [40, 60])] true ∧
    calculate_session_score [(5, [40, 60])] true = 70 :=
  calculate_session_score_spec [(5, [40, 60])] true (Or.inr (by decide))

/-! ## C7: the feedback type -/

/-- The feedback-type decision table in the spec's words and English
label vocabulary: frustrated → "support"; else demotivated →
"encouragement"; else confident and not stressed → "challenge"; else
stressed → "support"; else "balanced". -/
def feedbackTypeSpec (motivation frustration confidence stress : ℚ) :
    String :=
  if frustration ≥ 7/10 then "support"
  else if motivation ≤ 3/10 then "encouragement"
  else if confidence > 7/10 ∧ stress ≤ 7/10 then "challenge"
  else if stress > 7/10 then "support"
  else "balanced"

/-- The spec's English names for the source's French feedback labels:
"support" is the source's "soutien", and "balanced" names the source's
fallback label "aide"; "encouragement" and "challenge" coincide. -/
def feedbackLabelFr : String → String
  | "support" => "soutien"
  | "balanced" => "aide"
  | l => l

/-- **C7.** On every affective vector in [0,1]^4, the source's feedback
decision coincides, branch by branch and in the same priority order,
with the spec's decision table (under the spec's label vocabulary), and
the frustration check always wins: whenever frustration ≥ 0.7 the result
is "soutien" (= "support") regardless of the other components. -/
theorem get_feedback_type_spec (motivation frustration confidence stress : ℚ)
    (hm : 0 ≤ motivation ∧ motivation ≤ 1)
    (hf : 0 ≤ frustration ∧ frustration ≤ 1)
    (hc : 0 ≤ confidence ∧ confidence ≤ 1)
    (hs : 0 ≤ stress ∧ stress ≤ 1) :
    get_feedback_type motivation frustration confidence stress =
      feedbackLabelFr (feedbackTypeSpec motivation frustration confidence
        stress) ∧
    (7/10 ≤ frustration →
      get_feedback_type motivation frustration confidence stress =
        "soutien") := by
  constructor
  · simp only [get_feedback_type, feedbackTypeSpec, detect_frustration,
      detect_demotivation, Bool.and_eq_true, Bool.not_eq_true',
      decide_eq_true_eq, decide_eq_false_iff_not, not_lt, ge_iff_le]
    split_ifs <;> simp_all [feedbackLabelFr]
  · intro h
    simp [get_feedback_type, detect_frustration, h]

/-- Witness for C7 on a frustrated vector. -/
theorem get_feedback_type_spec_witness :
    get_feedback_type (1/2) (8/10) (1/2) (1/2) =
      feedbackLabelFr (feedbackTypeSpec (1/2) (8/10) (1/2) (1/2)) ∧
    ((7:ℚ)/10 ≤ 8/10 →
      get_feedback_type (1/2) (8/10) (1/2) (1/2) = "soutien") :=
  get_feedback_type_spec (1/2) (8/10) (1/2) (1/2)
    ⟨by norm_num, by norm_num⟩ ⟨by norm_num, by norm_num⟩
    ⟨by norm_num, by norm_num⟩ ⟨by norm_num, by norm_num⟩

/-! ## C8: extraction of per-competency scores -/

theorem assocFind_assocAppend_same (l : List (ℤ × List ℚ)) (k : ℤ) (v : ℚ) :
    assocFind (assocAppend l k v) k =
      some (((assocFind l k).getD []) ++ [v]) := by
  induction l with
  | nil => simp [assocAppend, assocFind]
  | cons p rest ih =>
      obtain ⟨k', vs⟩ := p
      by_cases h : k' = k
      · simp [assocAppend, assocFind, h]
      · simp [assocAppend, assocFind, h, ih]

theorem assocFind_assocAppend_ne (l : List (ℤ × List ℚ)) (k k' : ℤ) (v : ℚ)
    (h : k' ≠ k) :
    assocFind (assocAppend l k v) k' = assocFind l k' := by
  induction l with
  | nil => simp [assocAppend, assocFind, Ne.symm h]
  | cons p rest ih =>
      obtain ⟨k'', vs⟩ := p
      by_cases hk : k'' = k
      · subst hk
        simp [assocAppend, assocFind, Ne.symm h]
      · simp [assocAppend, assocFind, hk, ih]

/-- The scores observed for competency `cid`, in action order: one entry
per log whose payload is a dict carrying both a `competence_id` equal to
`cid` and a score. -/
def collectedScores (logs : List InteractionRow) (cid : ℤ) : List ℚ :=
  logs.filterMap (fun log =>
    match log.action_content with
    | some (.dict (some c) (some s)) => if c = cid then some s else none
    | _ => none)

theorem extractLoop_go (cid : ℤ) (hcid : cid ≠ 0)
    (logs : List InteractionRow) :
    ∀ acc : List (ℤ × List ℚ),
      assocFind
        (logs.foldl
          (fun acc log =>
            match log.action_content with
            | none => acc
            | some .nonDict => acc
            | some (.dict comp_id score) =>
                match comp_id, score with
                | some c, some s => if c = 0 then acc else assocAppend acc c s
                | _, _ => acc)
          acc) cid =
      match assocFind acc cid with
      | none =>
          if collectedScores logs cid = [] then none
          else some (collectedScores logs cid)
      | some vs => some (vs ++ collectedScores logs cid) := by
  induction logs with
  | nil =>
      intro acc
      simp only [List.foldl_nil, collectedScores, List.filterMap_nil]
      cases assocFind acc cid <;> simp
  | cons log rest ih =>
      intro acc
      rcases hlog : log.action_content with _ | ac
      · simp only [List.foldl_cons, hlog, ih, collectedScores,
          List.filterMap_cons, hlog]
      · rcases ac with _ | ⟨c, s⟩
        · simp only [List.foldl_cons, hlog, ih, collectedScores,
            List.filterMap_cons, hlog]
        · rcases c with _ | c
          · simp only [List.foldl_cons, hlog, ih, collectedScores,
              List.filterMap_cons, hlog]
          · rcases s with _ | s
            · simp only [List.foldl_cons, hlog, ih, collectedScores,
                List.filterMap_cons, hlog]
            · by_cases hc0 : c = 0
              · subst hc0
                have hne : (0:ℤ) ≠ cid := Ne.symm hcid
                simp [List.foldl_cons, hlog, ih, collectedScores,
                  List.filterMap_cons, hne]
              · by_cases hce : c = cid
                · subst hce
                  simp only [List.foldl_cons, hlog, if_neg hc0, ih,
                    collectedScores, List.filterMap_cons, hlog, if_pos rfl,
                    assocFind_assocAppend_same]
                  cases hacc : assocFind acc c <;>
                    simp [List.append_assoc]
                · simp only [List.foldl_cons, hlog, if_neg hc0, ih,
                    collectedScores, List.filterMap_cons, hlog, if_neg hce,
                    assocFind_assocAppend_ne _ _ _ _ (Ne.symm hce)]

theorem extractLoop_zero (logs : List InteractionRow) :
    ∀ acc : List (ℤ × List ℚ), assocFind acc 0 = none →
      assocFind
        (logs.foldl
          (fun acc log =>
            match log.action_content with
            | none => acc
            | some .nonDict => acc
            | some (.dict comp_id score) =>
                match comp_id, score with
                | some c, some s => if c = 0 then acc else assocAppend acc c s
                | _, _ => acc)
          acc) 0 = none := by
  induction logs with
  | nil => intro acc h; simpa using h
  | cons log rest ih =>
      intro acc h
      rcases hlog : log.action_content with _ | ac
      · simp only [List.foldl_cons, hlog]
        exact ih acc h
      · rcases ac with _ | ⟨c, s⟩
        · simp only [List.foldl_cons, hlog]
          exact ih acc h
        · rcases c with _ | c
          · simp only [List.foldl_cons, hlog]
            exact ih acc h
          · rcases s with _ | s
            · simp only [List.foldl_cons, hlog]
              exact ih acc h
            · by_cases hc0 : c = 0
              · subst hc0
                simp only [List.foldl_cons, hlog, if_pos rfl]
                exact ih acc h
              · simp only [List.foldl_cons, hlog, if_neg hc0]
                apply ih
                rw [assocFind_assocAppend_ne _ _ _ _ (Ne.symm hc0)]
                exact h

/-- **C8 (amended).** Extraction never fails (it is a total fold): every
action whose payload is absent, not a dict, or lacks a *truthy*
`competence_id` or a score is skipped, and for every nonzero competency
id the extracted group is exactly the list of that competency's observed
scores in action order.  A pair whose `competence_id` is 0 — present but
falsy under Python truthiness — is skipped like the malformed ones, and
key 0 never appears in the result. -/
theorem extract_competences_collects_pairs (db : Store)
    (session_id cid : ℤ) (hcid : cid ≠ 0) :
    assocFind (extract_competences_from_actions db session_id) cid =
      (if collectedScores
          (db.interactions.filter (fun i => i.session_id == session_id))
          cid = [] then none
       else some (collectedScores
          (db.interactions.filter (fun i => i.session_id == session_id))
          cid)) ∧
    assocFind (extract_competences_from_actions db session_id) 0 = none := by
  constructor
  · have h := extractLoop_go cid hcid
      (db.interactions.filter (fun i => i.session_id == session_id)) []
    simpa [extract_competences_from_actions, extractLoop, assocFind] using h
  · have h := extractLoop_zero
      (db.interactions.filter (fun i => i.session_id == session_id)) []
      (by simp [assocFind])
    simpa [extract_competences_from_actions, extractLoop] using h

/-- A store holding one session with a mixed bag of logged actions:
absent payload, non-dict payload, score-less pair, two scores for
competency 5, one for competency 2, and a falsy competency id 0. -/
def c8Store : Store :=
  { sessions := []
    masteries := []
    affectives := []
    behaviors := []
    competences := []
    interactions :=
      [{ session_id := 1, timestamp := 0, action_type := none,
         action_category := none, action_content := none,
         response_latency := none },
       { session_id := 1, timestamp := 1, action_type := none,
         action_category := none, action_content := some .nonDict,
         response_latency := none },
       { session_id := 1, timestamp := 2, action_type := none,
         action_category := none,
         action_content := some (.dict (some 5) none),
         response_latency := none },
       { session_id := 1, timestamp := 3, action_type := none,
         action_category := none,
         action_content := some (.dict (some 5) (some 40)),
         response_latency := none },
       { session_id := 1, timestamp := 4, action_type := none,
         action_category := none,
         action_content := some (.dict (some 2) (some 10)),
         response_latency := none },
       { session_id := 1, timestamp := 5, action_type := none,
         action_category := none,
         action_content := some (.dict (some 5) (some 60)),
         response_latency := none },
       { session_id := 1, timestamp := 6, action_type := none,
         action_category := none,
         action_content := some (.dict (some 0) (some 50)),
         response_latency := none }]
    cases := []
    now := 0 }

/-- Witness for C8 (amended) on the mixed store at competency 5. -/
theorem extract_competences_collects_pairs_witness :
    (assocFind (extract_competences_from_actions c8Store 1) 5 =
      (if collectedScores
          (c8Store.interactions.filter (fun i => i.session_id == 1)) 5 = []
       then none
       else some (collectedScores
          (c8Store.interactions.filter (fun i => i.session_id == 1)) 5)) ∧
    assocFind (extract_competences_from_actions c8Store 1) 0 = none) ∧
    extract_competences_from_actions c8Store 1 = [(5, [40, 60]), (2, [10])] :=
  ⟨extract_competences_collects_pairs c8Store 1 5 (by decide), by decide⟩

/-- **C8 counterexample.** A logged action carrying the extractable pair
`{competence_id: 0, score: 50}` is *not* collected: Python's truthiness
test on `competence_id` drops it, so the grouped result is empty where
the claim ("collects every present pair") demands `{0: [50]}`. -/
theorem extract_zero_id_pair_skipped_cex :
    (c8Store.interactions.map (fun i => i.action_content)).getLast? =
      some (some (ActionContent.dict (some 0) (some 50))) ∧
    assocFind (extract_competences_from_actions c8Store 1) 0 = none ∧
    extract_competences_from_actions c8Store 1 = [(5, [40, 60]), (2, [10])] := by
  refine ⟨by decide, by decide, by decide⟩

/-! ## C9: idempotence of the adaptation summary -/

/-- **C9.** For every learner and fixed store state, two consecutive
calls of `get_adaptation_summary` with no intervening events return
identical summaries (equal in every field), and the call leaves the
store untouched — every sub-call on this path is a read (no
`add`/`commit` in the source), and the `generated_at` field is the
symbolic, unevaluated `func.now()` expression. -/
theorem get_adaptation_summary_idempotent (db : Store) (learner_id : ℤ) :
    (get_adaptation_summary ((get_adaptation_summary db learner_id).2)
        learner_id).1 = (get_adaptation_summary db learner_id).1 ∧
    (get_adaptation_summary db learner_id).2 = db :=
  ⟨rfl, rfl⟩

/-! ## C1: completing an already-terminated session -/

/-- A session already in the terminal status `"termine"`. -/
def demoSession : SessionRow where
  id := 1
  learner_id := 7
  cas_clinique_id := 3
  start_time := some 0
  end_time := some 50
  score_final := some 70
  temps_total := some 50
  statut := some "termine"
  raison_fin := some "completed"
  current_stage := some "diagnostic"

/-- The learner's existing mastery record for competency 1. -/
def demoMastery : MasteryRow where
  learner_id := 7
  competence_id := 1
  mastery_level := some (6/10)
  confidence := some (35/100)
  last_practice_date := some 40
  nb_success := some 3
  nb_failures := some 0
  streak_correct := some 3

/-- The learner's existing behavior counters. -/
def demoBehavior : BehaviorRow where
  learner_id := 7
  sessions_count := some 1
  activities_count := some 1
  total_time_spent := some 50
  engagement_score := some (326/10000)

/-- The clinical case of the session. -/
def demoCase : CaseRow where
  id := 3
  niveau_difficulte := some 2
  nb_utilisations := some 1
  note_moyenne_apprenants := some (7/10)
  taux_succes_diagnostic := some 100

/-- A store whose only session is already completed (`"termine"`). -/
def demoStore : Store where
  sessions := [demoSession]
  masteries := [demoMastery]
  affectives := []
  behaviors := [demoBehavior]
  competences := [{ id := 1, code_competence := "ANAM", nom := "Anamnèse" }]
  interactions := []
  cases := [demoCase]
  now := 100

/-- One action carrying a competency-1 score of 60. -/
def demoActions : List ActionIn :=
  [{ action_type := some "examen"
     action_category := none
     action_content := some (.dict (some 1) (some 60))
     response_latency := none }]

/-- **C1 (evidence for the code bug).** On a session whose status is
already the terminal `"termine"`, `process_simulation_completion` does
*not* reject the call as an invalid-state error: it succeeds, performs a
second BKT mastery update (0.6 → 138/155, success count 3 → 4), appends
a new affective state, and increments the behavior counters — the exact
state changes the spec's state machine forbids.  (The HTTP route guards
only the `"termine"` case and only on the single-session endpoint; the
batch endpoint and the service itself perform no status check.) -/
theorem process_completion_ignores_terminal_state :
    demoSession.statut = some "termine" ∧
    demoStore.sessions = [demoSession] ∧
    (process_simulation_completion demoStore 1 demoActions "Paludisme"
        true).isOk = true ∧
    demoStore.masteries.map (fun m => (m.mastery_level, m.nb_success)) =
      [(some (6/10), some 3)] ∧
    (process_simulation_completion demoStore 1 demoActions "Paludisme"
        true).toOption.map
        (fun r => r.2.masteries.map fun m => (m.mastery_level, m.nb_success))
      = some [(some (138/155), some 4)] ∧
    demoStore.affectives.length = 0 ∧
    (process_simulation_completion demoStore 1 demoActions "Paludisme"
        true).toOption.map
        (fun r => (r.2.affectives.length,
          r.2.behaviors.map (fun b => b.sessions_count)))
      = some (1, [some 2]) := by
  exact ⟨rfl, rfl, by decide, by decide, by decide, rfl, by decide⟩

end Apprenant
